/-
Verification of the BharatConnect backend core: the eligibility engine
(`Backend/data/schemes.py`), the heuristic profile extractor and chat flow
(`Backend/routes/chat.py`), the sliding-window rate limiter
(`Backend/utils/rate_limit.py`) and the template fallback of the LLM service
(`Backend/services/llm_service.py`), shallowly embedded in Lean 4.

Conventions of the embedding:
* Python `int` values that are non-negative by construction (ages, incomes)
  are `Nat`; timestamps are `Int` seconds (datetime arithmetic is exact).
* Python `str.join` is `joinSep`, `f"{n:,}"` is `commaSep`.
* Python dicts keyed by strings are association lists or total functions,
  as noted at each definition.
-/
import Mathlib

namespace Bharat

/-- Python `sep.join(parts)`. -/
def joinSep (sep : String) : List String → String
  | [] => ""
  | [a] => a
  | a :: b :: rest => a ++ sep ++ joinSep sep (b :: rest)

/-- Helper for `commaSep`: input is the digit list reversed, `i` the index
from the right; a comma is emitted before every digit whose index is a
positive multiple of 3. -/
def commaRev : List Char → Nat → List Char
  | [], _ => []
  | c :: cs, i =>
    if i ≠ 0 ∧ i % 3 = 0 then ',' :: c :: commaRev cs (i + 1)
    else c :: commaRev cs (i + 1)

/-- Python `f"{n:,}"` for a non-negative int: decimal digits with a comma
between each group of three, counted from the right. -/
def commaSep (n : Nat) : String :=
  String.mk ((commaRev (toString n).data.reverse 0).reverse)

/-! ## Scheme catalog (`Backend/data/schemes.py`, `SCHEMES`) -/

structure Scheme where
  id : String
  name : String
  state : String
  category : String
  income_max : Nat
  age_min : Nat
  age_max : Nat
  benefits : String
  documents : List String
  apply_link : String
deriving DecidableEq, Repr

def scheme_1 : Scheme :=
  { id := "scheme_1", name := "National Scholarship for Higher Education",
    state := "ALL", category := "ALL", income_max := 250000,
    age_min := 17, age_max := 25,
    benefits := "Full tuition fee reimbursement up to ₹50,000 per year plus ₹10,000 annual book allowance for undergraduate students.",
    documents := ["Aadhaar Card", "Income Certificate", "Previous Year Marksheet", "Bank Passbook", "College Admission Letter"],
    apply_link := "https://scholarships.gov.in" }

def scheme_2 : Scheme :=
  { id := "scheme_2", name := "PM YASASVI Scholarship",
    state := "ALL", category := "OBC", income_max := 250000,
    age_min := 15, age_max := 25,
    benefits := "Annual scholarship of ₹75,000 for Class 9-10 students and ₹1,25,000 for Class 11-12 students from OBC, EBC, and DNT categories.",
    documents := ["Caste Certificate", "Income Certificate", "Aadhaar Card", "School Bonafide", "Parent ID Proof"],
    apply_link := "https://yet.nta.ac.in" }

def scheme_3 : Scheme :=
  { id := "scheme_3", name := "Post Matric Scholarship for SC Students",
    state := "ALL", category := "SC", income_max := 300000,
    age_min := 15, age_max := 35,
    benefits := "Complete tuition and examination fees covered, plus monthly maintenance allowance of ₹550-1200 based on course level.",
    documents := ["Caste Certificate", "Income Certificate", "Previous Marksheet", "Aadhaar Card", "Bank Account Details"],
    apply_link := "https://scholarships.gov.in" }

def scheme_4 : Scheme :=
  { id := "scheme_4", name := "Maharashtra State Merit Scholarship",
    state := "Maharashtra", category := "ALL", income_max := 800000,
    age_min := 16, age_max := 25,
    benefits := "Merit-based scholarship of ₹5,000-25,000 per year for students scoring above 75% in board exams.",
    documents := ["Domicile Certificate", "Marksheet", "Income Certificate", "Aadhaar Card"],
    apply_link := "https://mahadbt.maharashtra.gov.in" }

def scheme_5 : Scheme :=
  { id := "scheme_5", name := "Karnataka Vidyasiri Scholarship",
    state := "Karnataka", category := "ALL", income_max := 200000,
    age_min := 17, age_max := 25,
    benefits := "Annual scholarship ranging from ₹11,000 to ₹50,000 based on course for students from economically weaker sections.",
    documents := ["Income Certificate", "Caste Certificate", "Aadhaar Card", "College ID", "Fee Receipt"],
    apply_link := "https://karepass.karnataka.gov.in" }

def scheme_6 : Scheme :=
  { id := "scheme_6", name := "Central Sector Scholarship for College Students",
    state := "ALL", category := "ALL", income_max := 450000,
    age_min := 17, age_max := 25,
    benefits := "₹12,000 per annum for graduation (first 3 years), ₹20,000 for post-graduation. Top 20 percentile of 12th board students.",
    documents := ["12th Marksheet", "Income Certificate", "Aadhaar Card", "Bank Details", "College Admission Proof"],
    apply_link := "https://scholarships.gov.in" }

def scheme_7 : Scheme :=
  { id := "scheme_7", name := "Pragati Scholarship for Girl Students",
    state := "ALL", category := "ALL", income_max := 800000,
    age_min := 17, age_max := 30,
    benefits := "₹50,000 per year for girl students pursuing technical education. Only 2 girls per family eligible.",
    documents := ["Aadhaar Card", "Income Certificate", "Previous Marksheet", "Bank Account", "Institute Bonafide"],
    apply_link := "https://aicte-pragati-saksham-gov.in" }

def scheme_8 : Scheme :=
  { id := "scheme_8", name := "UP Scholarship for Minority Students",
    state := "Uttar Pradesh", category := "Minority", income_max := 200000,
    age_min := 14, age_max := 30,
    benefits := "Full fee reimbursement for minority community students including Muslims, Christians, Sikhs, Buddhists, and Parsis.",
    documents := ["Minority Certificate", "Income Certificate", "Aadhaar", "Previous Marksheet", "Bank Passbook"],
    apply_link := "https://scholarship.up.gov.in" }

def scheme_9 : Scheme :=
  { id := "scheme_9", name := "Pre Matric Scholarship for ST Students",
    state := "ALL", category := "ST", income_max := 200000,
    age_min := 10, age_max := 18,
    benefits := "Monthly stipend of ₹150-350 for day scholars and ₹500-750 for hostellers studying in Class 9-10.",
    documents := ["Tribe Certificate", "Income Certificate", "School ID", "Aadhaar Card", "Parent Bank Account"],
    apply_link := "https://scholarships.gov.in" }

def scheme_10 : Scheme :=
  { id := "scheme_10", name := "Tamil Nadu Free Education Scheme",
    state := "Tamil Nadu", category := "ALL", income_max := 500000,
    age_min := 6, age_max := 25,
    benefits := "Complete fee waiver in government schools and colleges plus free textbooks, uniforms, and mid-day meals.",
    documents := ["Community Certificate", "Income Certificate", "Aadhaar Card", "School Bonafide"],
    apply_link := "https://tnscholarships.gov.in" }

def SCHEMES : List Scheme :=
  [scheme_1, scheme_2, scheme_3, scheme_4, scheme_5,
   scheme_6, scheme_7, scheme_8, scheme_9, scheme_10]

/-! ## Eligibility engine (`Backend/data/schemes.py`, `is_eligible`) -/

/-- A fully populated user profile, as consumed by `is_eligible`
(Python dict with keys age, income, state, category). -/
structure CompleteProfile where
  age : Nat
  income : Nat
  state : String
  category : String
deriving DecidableEq, Repr

def ageRejectMsg (s : Scheme) : String :=
  "Age must be between " ++ toString s.age_min ++ "-" ++ toString s.age_max

def incomeRejectMsg (s : Scheme) : String :=
  "Income must be below ₹" ++ commaSep s.income_max

def categoryRejectMsg (s : Scheme) : String :=
  "This scheme is for " ++ s.category ++ " category only"

def stateRejectMsg (s : Scheme) : String :=
  "This scheme is only for " ++ s.state

def ageOkClause (p : CompleteProfile) (s : Scheme) : String :=
  "Age " ++ toString p.age ++ " is within " ++ toString s.age_min ++ "-"
    ++ toString s.age_max ++ " range"

def incomeOkClause (p : CompleteProfile) : String :=
  "Income ₹" ++ commaSep p.income ++ " is below limit"

def categoryOkClause (p : CompleteProfile) : String :=
  p.category ++ " category matches"

def stateOkClause (p : CompleteProfile) : String :=
  p.state ++ " state matches"

/-- `is_eligible` (schemes.py lines 131-168): ordered checks with an
incrementally grown `reasons` list, exactly as in the source. -/
def is_eligible (p : CompleteProfile) (s : Scheme) : Bool × String :=
  if p.age < s.age_min ∨ p.age > s.age_max then
    (false, ageRejectMsg s)
  else
    let reasons := [ageOkClause p s]
    if p.income > s.income_max then
      (false, incomeRejectMsg s)
    else
      let reasons := reasons ++ [incomeOkClause p]
      if s.category ≠ "ALL" ∧ s.category ≠ p.category then
        (false, categoryRejectMsg s)
      else
        let reasons := if s.category ≠ "ALL" then reasons ++ [categoryOkClause p] else reasons
        if s.state ≠ "ALL" ∧ s.state ≠ p.state then
          (false, stateRejectMsg s)
        else
          let reasons := if s.state ≠ "ALL" then reasons ++ [stateOkClause p] else reasons
          (true, joinSep " • " reasons)

/-- The specification's reading of `is_eligible`: a short-circuit chain over
the criteria in the order age, income, category, state, and on full success
the affirming clauses joined with " • " in append order, the category and
state clauses being present only when the scheme's field is not "ALL". -/
def is_eligible_claim (p : CompleteProfile) (s : Scheme) : Bool × String :=
  if p.age < s.age_min ∨ p.age > s.age_max then
    (false, ageRejectMsg s)
  else if p.income > s.income_max then
    (false, incomeRejectMsg s)
  else if s.category ≠ "ALL" ∧ s.category ≠ p.category then
    (false, categoryRejectMsg s)
  else if s.state ≠ "ALL" ∧ s.state ≠ p.state then
    (false, stateRejectMsg s)
  else
    (true, joinSep " • "
      ([ageOkClause p s, incomeOkClause p]
        ++ (if s.category ≠ "ALL" then [categoryOkClause p] else [])
        ++ (if s.state ≠ "ALL" then [stateOkClause p] else [])))

/-- C1: `is_eligible` checks age, income, category, state in that order,
short-circuits on the first failure with that criterion's rejection message,
and on success joins the affirming clauses with " • " in append order,
omitting the category/state clauses when the scheme's field is "ALL". -/
theorem is_eligible_refines_claim (p : CompleteProfile) (s : Scheme) :
    is_eligible p s = is_eligible_claim p s := by
  unfold is_eligible is_eligible_claim
  split_ifs <;> simp_all

/-- C2: the eligibility boundaries are inclusive — age equal to `age_min` or
`age_max` passes the age check, income equal to `income_max` passes the
income check, and income equal to `income_max + 1` is rejected on income. -/
lemma is_eligible_eq_true_of (p : CompleteProfile) (s : Scheme)
    (h1 : s.age_min ≤ p.age) (h2 : p.age ≤ s.age_max)
    (h3 : p.income ≤ s.income_max)
    (hcat : s.category = "ALL" ∨ p.category = s.category)
    (hst : s.state = "ALL" ∨ p.state = s.state) :
    (is_eligible p s).1 = true := by
  have hA : ¬(p.age < s.age_min ∨ p.age > s.age_max) := by omega
  have hB : ¬(p.income > s.income_max) := by omega
  have hC : ¬(s.category ≠ "ALL" ∧ s.category ≠ p.category) := by
    rcases hcat with h | h <;> simp [h]
  have hD : ¬(s.state ≠ "ALL" ∧ s.state ≠ p.state) := by
    rcases hst with h | h <;> simp [h]
  simp only [is_eligible, if_neg hA, if_neg hB, if_neg hC, if_neg hD]

lemma is_eligible_income_reject (p : CompleteProfile) (s : Scheme)
    (h1 : s.age_min ≤ p.age) (h2 : p.age ≤ s.age_max)
    (h3 : s.income_max < p.income) :
    is_eligible p s = (false, incomeRejectMsg s) := by
  have hA : ¬(p.age < s.age_min ∨ p.age > s.age_max) := by omega
  have hB : p.income > s.income_max := h3
  simp only [is_eligible, if_neg hA, if_pos hB]

theorem eligibility_boundaries_inclusive (s : Scheme) (p : CompleteProfile)
    (hcat : s.category = "ALL" ∨ p.category = s.category)
    (hst : s.state = "ALL" ∨ p.state = s.state) :
    ((p.age = s.age_min ∨ p.age = s.age_max) → s.age_min ≤ s.age_max →
      p.income ≤ s.income_max → (is_eligible p s).1 = true)
    ∧ (s.age_min ≤ p.age → p.age ≤ s.age_max → p.income = s.income_max →
      (is_eligible p s).1 = true)
    ∧ (s.age_min ≤ p.age → p.age ≤ s.age_max → p.income = s.income_max + 1 →
      is_eligible p s = (false, incomeRejectMsg s)) := by
  refine ⟨fun h1 h2 h3 => ?_, fun h1 h2 h3 => ?_, fun h1 h2 h3 => ?_⟩
  · rcases h1 with h | h <;>
      exact is_eligible_eq_true_of p s (by omega) (by omega) h3 hcat hst
  · exact is_eligible_eq_true_of p s h1 h2 (by omega) hcat hst
  · exact is_eligible_income_reject p s h1 h2 (by omega)

theorem eligibility_boundaries_inclusive_witness :
    (is_eligible ⟨17, 250000, "Delhi", "General"⟩ scheme_1).1 = true
    ∧ (is_eligible ⟨25, 250000, "Delhi", "General"⟩ scheme_1).1 = true
    ∧ is_eligible ⟨17, 250001, "Delhi", "General"⟩ scheme_1
        = (false, incomeRejectMsg scheme_1) :=
  ⟨(eligibility_boundaries_inclusive scheme_1 ⟨17, 250000, "Delhi", "General"⟩
      (Or.inl rfl) (Or.inl rfl)).1 (Or.inl rfl) (by decide) (by decide),
   (eligibility_boundaries_inclusive scheme_1 ⟨25, 250000, "Delhi", "General"⟩
      (Or.inl rfl) (Or.inl rfl)).1 (Or.inr rfl) (by decide) (by decide),
   (eligibility_boundaries_inclusive scheme_1 ⟨17, 250001, "Delhi", "General"⟩
      (Or.inl rfl) (Or.inl rfl)).2.2 (by decide) (by decide) rfl⟩

/-! ## `get_eligible_schemes` (schemes.py lines 171-190)

The Python loop builds, for each eligible scheme, `scheme.copy()` with the
extra key `eligibilityReason`; the embedding renders such a copy as the pair
of the unmodified catalog record and the reason string, following the spec's
own modelling note ("construct a new view record combining the immutable
catalog entry with a computed field"). -/

def get_eligible_schemes (p : CompleteProfile) : List (Scheme × String) :=
  SCHEMES.foldl (fun acc scheme =>
    let r := is_eligible p scheme
    if r.1 then acc ++ [(scheme, r.2)] else acc) []

lemma foldl_filtered_append {α β : Type} (f : α → Bool) (g : α → β) :
    ∀ (l : List α) (acc : List β),
      l.foldl (fun acc s => if f s then acc ++ [g s] else acc) acc
        = acc ++ (l.filter f).map g := by
  intro l
  induction l with
  | nil => intro acc; simp
  | cons a l ih =>
    intro acc
    by_cases h : f a <;> simp [List.filter_cons, h, ih]

lemma get_eligible_schemes_eq (p : CompleteProfile) :
    get_eligible_schemes p
      = (SCHEMES.filter (fun s => (is_eligible p s).1)).map
          (fun s => (s, (is_eligible p s).2)) := by
  unfold get_eligible_schemes
  exact foldl_filtered_append (fun s => (is_eligible p s).1)
    (fun s => (s, (is_eligible p s).2)) SCHEMES []

lemma joinSep_cons_data (sep a : String) (rest : List String) :
    ∃ t, (joinSep sep (a :: rest)).data = a.data ++ t := by
  cases rest with
  | nil => exact ⟨[], by simp [joinSep]⟩
  | cons b t =>
    exact ⟨sep.data ++ (joinSep sep (b :: t)).data,
      by simp [joinSep, String.data_append]⟩

lemma joinSep_cons_ne_empty (sep a : String) (rest : List String)
    (ha : a.data ≠ []) : joinSep sep (a :: rest) ≠ "" := by
  intro h
  obtain ⟨t, ht⟩ := joinSep_cons_data sep a rest
  rw [h] at ht
  exact ha (List.append_eq_nil.mp ht.symm).1

lemma ageOkClause_data_ne_nil (p : CompleteProfile) (s : Scheme) :
    (ageOkClause p s).data ≠ [] := by
  simp [ageOkClause, String.data_append]

lemma is_eligible_true_reason_ne_empty (p : CompleteProfile) (s : Scheme) :
    (is_eligible p s).1 = true → (is_eligible p s).2 ≠ "" := by
  unfold is_eligible
  split_ifs <;> simp_all <;>
    exact joinSep_cons_ne_empty _ _ _ (ageOkClause_data_ne_nil p s)

/-- C7: `get_eligible_schemes` returns exactly the catalog subsequence of
schemes for which `is_eligible` holds, in catalog order (filter-and-map, no
re-sorting), and every returned record carries a non-empty reason. -/
theorem get_eligible_schemes_filter_order (p : CompleteProfile) :
    get_eligible_schemes p
      = (SCHEMES.filter (fun s => (is_eligible p s).1)).map
          (fun s => (s, (is_eligible p s).2))
    ∧ ∀ r ∈ get_eligible_schemes p, r.2 ≠ "" := by
  refine ⟨get_eligible_schemes_eq p, fun r hr => ?_⟩
  rw [get_eligible_schemes_eq p] at hr
  simp only [List.mem_map, List.mem_filter] at hr
  obtain ⟨s, ⟨_, hs⟩, rfl⟩ := hr
  exact is_eligible_true_reason_ne_empty p s hs

theorem get_eligible_schemes_filter_order_witness :
    (scheme_1, (is_eligible ⟨18, 200000, "Maharashtra", "General"⟩ scheme_1).2)
      ∈ get_eligible_schemes ⟨18, 200000, "Maharashtra", "General"⟩
    ∧ (is_eligible ⟨18, 200000, "Maharashtra", "General"⟩ scheme_1).2 ≠ "" :=
  ⟨by decide,
   (get_eligible_schemes_filter_order ⟨18, 200000, "Maharashtra", "General"⟩).2
     (scheme_1, (is_eligible ⟨18, 200000, "Maharashtra", "General"⟩ scheme_1).2)
     (by decide)⟩

/-- C9: every record returned by `get_eligible_schemes` pairs an unmodified
member of the `SCHEMES` catalog with its computed reason — the reason lives
only on the returned view record, never on the catalog entry. -/
theorem get_eligible_schemes_no_mutation (p : CompleteProfile) :
    ∀ r ∈ get_eligible_schemes p,
      r.1 ∈ SCHEMES ∧ r.2 = (is_eligible p r.1).2 := by
  intro r hr
  rw [get_eligible_schemes_eq p] at hr
  simp only [List.mem_map, List.mem_filter] at hr
  obtain ⟨s, ⟨hsmem, _⟩, rfl⟩ := hr
  exact ⟨hsmem, rfl⟩

theorem get_eligible_schemes_no_mutation_witness :
    (scheme_4, (is_eligible ⟨16, 300000, "Maharashtra", "General"⟩ scheme_4).2).1
      ∈ SCHEMES
    ∧ (scheme_4,
        (is_eligible ⟨16, 300000, "Maharashtra", "General"⟩ scheme_4).2).2
      = (is_eligible ⟨16, 300000, "Maharashtra", "General"⟩ scheme_4).2 :=
  get_eligible_schemes_no_mutation ⟨16, 300000, "Maharashtra", "General"⟩
    (scheme_4, (is_eligible ⟨16, 300000, "Maharashtra", "General"⟩ scheme_4).2)
    (by decide)

/-! ## Rate limiter (`Backend/utils/rate_limit.py`) -/

/-- `RateLimiter` state. The Python dict `self.requests` is modelled as a
total map from keys to timestamp lists: a missing key stands for the empty
list, matching `if key not in self.requests: self.requests[key] = []`.
Timestamps are `Int` seconds; `datetime` arithmetic is exact. -/
structure RateLimiter where
  max_requests : Nat
  window_seconds : Int
  requests : String → List Int

/-- `RateLimiter.is_allowed` (rate_limit.py lines 27-56): prune timestamps
at or before `now - window_seconds` (the code keeps `req_time >
window_start`), then admit-and-record when under the limit, else reject.
Returns the (allowed, remaining) pair together with the updated limiter;
the Python local `self.requests[key]` after pruning is written out inline. -/
def RateLimiter.is_allowed (rl : RateLimiter) (key : String) (now : Int) :
    (Bool × Int) × RateLimiter :=
  if 0 < (rl.max_requests : Int)
      - ((rl.requests key).filter (fun t => now - rl.window_seconds < t)).length then
    ((true, (rl.max_requests : Int)
        - ((rl.requests key).filter (fun t => now - rl.window_seconds < t)).length),
     { rl with requests := fun k => if k = key
         then (rl.requests key).filter (fun t => now - rl.window_seconds < t) ++ [now]
         else rl.requests k })
  else
    ((false, 0),
     { rl with requests := fun k => if k = key
         then (rl.requests key).filter (fun t => now - rl.window_seconds < t)
         else rl.requests k })

/-- The specification's wording of the sliding window: discard timestamps
that are ≤ `now - window_seconds` (only strictly later ones survive),
compute `remaining`, record `now` and return (true, remaining) when
`remaining > 0`, else return (false, 0) without recording. -/
def is_allowed_spec (rl : RateLimiter) (key : String) (now : Int) :
    (Bool × Int) × RateLimiter :=
  if (rl.max_requests : Int)
      - ((rl.requests key).filter (fun t => !decide (t ≤ now - rl.window_seconds))).length
      > 0 then
    ((true, (rl.max_requests : Int)
        - ((rl.requests key).filter (fun t => !decide (t ≤ now - rl.window_seconds))).length),
     { rl with requests := fun k => if k = key
         then (rl.requests key).filter (fun t => !decide (t ≤ now - rl.window_seconds)) ++ [now]
         else rl.requests k })
  else
    ((false, 0),
     { rl with requests := fun k => if k = key
         then (rl.requests key).filter (fun t => !decide (t ≤ now - rl.window_seconds))
         else rl.requests k })

/-- The per-key results of a sequence of calls at the given times. -/
def callResults (key : String) : RateLimiter → List Int → List (Bool × Int)
  | _, [] => []
  | rl, t :: ts => (rl.is_allowed key t).1 :: callResults key (rl.is_allowed key t).2 ts

/-- The limiter state after a sequence of calls at the given times. -/
def runCalls (key : String) : RateLimiter → List Int → RateLimiter
  | rl, [] => rl
  | rl, t :: ts => runCalls key (rl.is_allowed key t).2 ts

lemma is_allowed_admit_state (rl : RateLimiter) (key : String) (now : Int)
    (hkeep : ∀ s ∈ rl.requests key, now - rl.window_seconds < s)
    (hlen : (rl.requests key).length < rl.max_requests) :
    (rl.is_allowed key now).1.1 = true
    ∧ (rl.is_allowed key now).2.requests key = rl.requests key ++ [now]
    ∧ (rl.is_allowed key now).2.max_requests = rl.max_requests
    ∧ (rl.is_allowed key now).2.window_seconds = rl.window_seconds := by
  have hf : (rl.requests key).filter (fun t => decide (now - rl.window_seconds < t))
      = rl.requests key :=
    List.filter_eq_self.mpr (fun s hs => decide_eq_true (hkeep s hs))
  have hpos : (0 : Int) < (rl.max_requests : Int) - (rl.requests key).length := by
    have : ((rl.requests key).length : Int) < (rl.max_requests : Int) := by
      exact_mod_cast hlen
    omega
  simp only [RateLimiter.is_allowed, hf, if_pos hpos]
  simp

lemma is_allowed_reject_of_full (rl : RateLimiter) (key : String) (now : Int)
    (hkeep : ∀ s ∈ rl.requests key, now - rl.window_seconds < s)
    (hlen : rl.max_requests ≤ (rl.requests key).length) :
    (rl.is_allowed key now).1 = (false, 0)
    ∧ (rl.is_allowed key now).2.requests key = rl.requests key := by
  have hf : (rl.requests key).filter (fun t => decide (now - rl.window_seconds < t))
      = rl.requests key :=
    List.filter_eq_self.mpr (fun s hs => decide_eq_true (hkeep s hs))
  have hneg : ¬ (0 : Int) < (rl.max_requests : Int) - (rl.requests key).length := by
    have : (rl.max_requests : Int) ≤ ((rl.requests key).length : Int) := by
      exact_mod_cast hlen
    omega
  simp only [RateLimiter.is_allowed, hf, if_neg hneg]
  simp

lemma is_allowed_reject_keeps_state (rl : RateLimiter) (key : String) (now : Int)
    (hlen : (rl.requests key).length ≤ rl.max_requests)
    (hrej : (rl.is_allowed key now).1.1 = false) :
    (rl.is_allowed key now).1 = (false, 0)
    ∧ (rl.is_allowed key now).2.requests key = rl.requests key := by
  by_cases hpos : (0 : Int) <
      (rl.max_requests : Int)
        - ((rl.requests key).filter
            (fun t => decide (now - rl.window_seconds < t))).length
  · unfold RateLimiter.is_allowed at hrej
    rw [if_pos hpos] at hrej
    simp at hrej
  · have hsub : ((rl.requests key).filter
        (fun t => decide (now - rl.window_seconds < t))).Sublist (rl.requests key) :=
      List.filter_sublist _
    have hfull : (rl.requests key).filter
        (fun t => decide (now - rl.window_seconds < t)) = rl.requests key := by
      apply hsub.eq_of_length
      have h1 := hsub.length_le
      have h2 : rl.max_requests ≤ ((rl.requests key).filter
          (fun t => decide (now - rl.window_seconds < t))).length := by
        by_contra hc
        push_neg at hc
        have : (0 : Int) < (rl.max_requests : Int)
            - ((rl.requests key).filter
                (fun t => decide (now - rl.window_seconds < t))).length := by
          have : (((rl.requests key).filter
              (fun t => decide (now - rl.window_seconds < t))).length : Int)
              < (rl.max_requests : Int) := by exact_mod_cast hc
          omega
        exact hpos this
      omega
    simp only [RateLimiter.is_allowed, if_neg hpos]
    simp [hfull]

/-- Core induction for the fresh-key scenario: starting from a limiter whose
stored list for `key` is `acc`, a batch of calls that all survive every
later pruning and stay under the limit is admitted in full, appending the
call times in order. -/
lemma runCalls_all_admitted (key : String) :
    ∀ (ts : List Int) (rl : RateLimiter) (acc : List Int),
      rl.requests key = acc →
      acc.length + ts.length ≤ rl.max_requests →
      (∀ t ∈ ts, ∀ s ∈ acc, t - rl.window_seconds < s) →
      List.Pairwise (fun a b => b - rl.window_seconds < a) ts →
      (∀ r ∈ callResults key rl ts, r.1 = true)
      ∧ (runCalls key rl ts).requests key = acc ++ ts
      ∧ (runCalls key rl ts).max_requests = rl.max_requests
      ∧ (runCalls key rl ts).window_seconds = rl.window_seconds := by
  intro ts
  induction ts with
  | nil =>
    intro rl acc hreq _ _ _
    simp [callResults, runCalls, hreq]
  | cons t ts ih =>
    intro rl acc hreq hlen hsur hpair
    have hkeep : ∀ s ∈ rl.requests key, t - rl.window_seconds < s := by
      intro s hs
      rw [hreq] at hs
      exact hsur t (List.mem_cons_self t ts) s hs
    have hlt : (rl.requests key).length < rl.max_requests := by
      rw [hreq]
      simp only [List.length_cons] at hlen
      omega
    obtain ⟨hres, hreq', hmax', hwin'⟩ := is_allowed_admit_state rl key t hkeep hlt
    have hreq'' : (rl.is_allowed key t).2.requests key = acc ++ [t] := by
      rw [hreq', hreq]
    have ihres := ih (rl.is_allowed key t).2 (acc ++ [t]) hreq''
      (by
        rw [hmax']
        simp only [List.length_append, List.length_cons, List.length_nil] at hlen ⊢
        omega)
      (by
        intro u hu s hs
        rw [hwin']
        rcases List.mem_append.mp hs with h | h
        · exact hsur u (List.mem_cons_of_mem t hu) s h
        · have : s = t := List.mem_singleton.mp h
          subst this
          exact (List.pairwise_cons.mp hpair).1 u hu)
      (by
        rw [hwin']
        exact (List.pairwise_cons.mp hpair).2)
    refine ⟨?_, ?_, ?_, ?_⟩
    · intro r hr
      simp only [callResults] at hr
      rcases List.mem_cons.mp hr with hr | hr
      · rw [hr]
        exact hres
      · exact ihres.1 r hr
    · simpa [runCalls, List.append_assoc] using ihres.2.1
    · simp only [runCalls]
      rw [ihres.2.2.1, hmax']
    · simp only [runCalls]
      rw [ihres.2.2.2, hwin']

/-- C3: `is_allowed` implements the spec's sliding window step for step;
for a fresh key, `max_requests` in-window calls all succeed, the next
in-window call is rejected and leaves that key's stored timestamps
unchanged; and in general a rejection (from any state within the capacity
invariant) returns (false, 0) and leaves the key's state unchanged. -/
theorem rate_limiter_sliding_window :
    (∀ (rl : RateLimiter) (key : String) (now : Int),
      rl.is_allowed key now = is_allowed_spec rl key now)
    ∧ (∀ (rl : RateLimiter) (key : String) (ts : List Int) (t_next : Int),
        rl.requests key = [] →
        ts.length = rl.max_requests →
        List.Pairwise (· ≤ ·) ts →
        (∀ t ∈ ts, t ≤ t_next) →
        (∀ t ∈ ts, t_next - rl.window_seconds < t) →
        (∀ r ∈ callResults key rl ts, r.1 = true)
        ∧ ((runCalls key rl ts).is_allowed key t_next).1 = (false, 0)
        ∧ ((runCalls key rl ts).is_allowed key t_next).2.requests key
            = (runCalls key rl ts).requests key)
    ∧ (∀ (rl : RateLimiter) (key : String) (now : Int),
        (rl.requests key).length ≤ rl.max_requests →
        (rl.is_allowed key now).1.1 = false →
        (rl.is_allowed key now).1 = (false, 0)
        ∧ (rl.is_allowed key now).2.requests key = rl.requests key) := by
  refine ⟨?_, ?_, ?_⟩
  · intro rl key now
    have hf : (rl.requests key).filter (fun t => decide (now - rl.window_seconds < t))
        = (rl.requests key).filter (fun t => !decide (t ≤ now - rl.window_seconds)) := by
      apply List.filter_congr
      intro t _
      rw [← decide_not]
      exact decide_eq_decide.mpr not_le.symm
    unfold RateLimiter.is_allowed is_allowed_spec
    rw [hf]
  · intro rl key ts t_next hfresh hlen hpairle hle hwin
    have hpair : List.Pairwise (fun a b => b - rl.window_seconds < a) ts := by
      apply List.pairwise_of_forall_mem_list
      intro a ha b hb
      have h1 := hwin a ha
      have h2 := hle b hb
      omega
    obtain ⟨hall, hreq, hmax, hwinp⟩ := runCalls_all_admitted key ts rl []
      hfresh (by simp [hlen]) (by simp) hpair
    have hkeep : ∀ s ∈ (runCalls key rl ts).requests key,
        t_next - (runCalls key rl ts).window_seconds < s := by
      intro s hs
      rw [hreq] at hs
      rw [hwinp]
      exact hwin s (by simpa using hs)
    have hfull : (runCalls key rl ts).max_requests
        ≤ ((runCalls key rl ts).requests key).length := by
      rw [hreq, hmax]
      simp [hlen]
    obtain ⟨h1, h2⟩ := is_allowed_reject_of_full (runCalls key rl ts) key t_next hkeep hfull
    exact ⟨hall, h1, h2⟩
  · intro rl key now hlen hrej
    exact is_allowed_reject_keeps_state rl key now hlen hrej

theorem rate_limiter_sliding_window_witness :
    (({ max_requests := 2, window_seconds := 60, requests := fun _ => [] }
        : RateLimiter).is_allowed "k" 0
      = is_allowed_spec
          { max_requests := 2, window_seconds := 60, requests := fun _ => [] } "k" 0)
    ∧ (∀ r ∈ callResults "k"
          { max_requests := 2, window_seconds := 60, requests := fun _ => [] }
          [0, 10], r.1 = true)
    ∧ ((runCalls "k"
          { max_requests := 2, window_seconds := 60, requests := fun _ => [] }
          [0, 10]).is_allowed "k" 20).1 = (false, 0)
    ∧ ((runCalls "k"
          { max_requests := 2, window_seconds := 60, requests := fun _ => [] }
          [0, 10]).is_allowed "k" 20).2.requests "k"
        = (runCalls "k"
            { max_requests := 2, window_seconds := 60, requests := fun _ => [] }
            [0, 10]).requests "k" := by
  have h2 := rate_limiter_sliding_window.2.1
    { max_requests := 2, window_seconds := 60, requests := fun _ => [] }
    "k" [0, 10] 20 rfl rfl (by decide) (by decide) (by decide)
  exact ⟨rate_limiter_sliding_window.1
    { max_requests := 2, window_seconds := 60, requests := fun _ => [] } "k" 0,
    h2.1, h2.2.1, h2.2.2⟩

/-! ## Profile extraction (`Backend/routes/chat.py`, `extract_profile_info`)

The regexes of the source are modelled operationally over the ASCII
fragment (Lean `Char.isDigit`/`Char.isAlphanum` are ASCII; Python `\d`/`\w`
additionally match non-ASCII letters and digits, which none of the
catalog's keywords use). Python floats are modelled as exact rationals. -/

/-- `UserProfile` (schemas.py): four optional fields, each unset or set. -/
structure UserProfile where
  age : Option Nat := none
  income : Option Nat := none
  state : Option String := none
  category : Option String := none
deriving DecidableEq, Repr

/-- Python `\w` (ASCII fragment): letters, digits, underscore. -/
def wordChar (c : Char) : Bool :=
  c.isAlphanum || c = '_'

/-- ASCII lower-casing of one character (Python `str.lower`, ASCII
fragment). -/
def lowerChar (c : Char) : Char :=
  if 65 ≤ c.toNat ∧ c.toNat ≤ 90 then Char.ofNat (c.toNat + 32) else c

/-- Python `str.lower()`. -/
def strLower (s : String) : String :=
  String.mk (s.data.map lowerChar)

/-- The whitespace stripped by Python `str.strip()` (ASCII fragment). -/
def pySpace (c : Char) : Bool :=
  c = ' ' || c = '\t' || c = '\n' || c = '\r' || c = '\x0b' || c = '\x0c'

/-- Python `str.strip()`. -/
def strTrim (s : String) : String :=
  String.mk (((s.data.dropWhile pySpace).reverse.dropWhile pySpace).reverse)

/-- `message_lower = message.lower().strip()` (chat.py line 119). -/
def messageLower (message : String) : String :=
  strTrim (strLower message)

/-- Leftmost match of `\b(\d{1,2})\b` over a char list, with `prev` the
character before the current position (none at the start of the string):
a 1-2 digit run delimited by word boundaries, the two-digit alternative
tried first (greedy), scanning positions left to right. -/
def scanAge : Option Char → List Char → Option Nat
  | _, [] => none
  | prev, c :: rest =>
    let boundaryBefore : Bool := match prev with
      | none => true
      | some p => !wordChar p
    let here : Option Nat :=
      if c.isDigit && boundaryBefore then
        match rest with
        | [] => some (c.toNat - 48)
        | d :: rest2 =>
          if d.isDigit then
            match rest2 with
            | [] => some ((c.toNat - 48) * 10 + (d.toNat - 48))
            | e :: _ =>
              if !wordChar e then some ((c.toNat - 48) * 10 + (d.toNat - 48))
              else none
          else if !wordChar d then some (c.toNat - 48)
          else none
      else none
    match here with
    | some n => some n
    | none => scanAge (some c) rest

/-- `re.search(r'\b(\d{1,2})\b', message)` as the matched number. -/
def findAgeNum (message : String) : Option Nat :=
  scanAge none message.data

/-- Continuation of the integer part of `\d+(?:,\d+)*`: consumes further
digits and comma-digit groups, returning the digits (commas dropped, as by
`.replace(',', '')`) and the unconsumed remainder. -/
def numTail : List Char → List Char × List Char
  | [] => ([], [])
  | d :: rest =>
    if d.isDigit then
      let (ds, r) := numTail rest
      (d :: ds, r)
    else if d = ',' then
      match rest with
      | e :: rest2 =>
        if e.isDigit then
          let (ds, r) := numTail rest2
          (e :: ds, r)
        else ([], ',' :: e :: rest2)
      | [] => ([], [','])
    else ([], d :: rest)

/-- The optional `(?:\.\d+)?` fraction: a dot followed by at least one
digit, taken greedily. -/
def fracPart : List Char → List Char
  | '.' :: e :: rest =>
    if e.isDigit then e :: List.takeWhile Char.isDigit rest else []
  | _ => []

/-- Leftmost match of `(\d+(?:,\d+)*(?:\.\d+)?)`: the match starts at the
first digit of the string; returns (integer digits, fraction digits). -/
def scanNumber : List Char → Option (List Char × List Char)
  | [] => none
  | c :: rest =>
    if c.isDigit then
      let (ds, r) := numTail rest
      some (c :: ds, fracPart r)
    else scanNumber rest

def digitsToNat (ds : List Char) : Nat :=
  ds.foldl (fun n c => n * 10 + (c.toNat - 48)) 0

/-- The numeric value of the matched group, as an exact rational (the
source parses it with `float`). -/
def parsedIncomeValue (intDs fracDs : List Char) : ℚ :=
  (digitsToNat intDs : ℚ) + (digitsToNat fracDs : ℚ) / (10 : ℚ) ^ fracDs.length

def startsWithL : List Char → List Char → Bool
  | _, [] => true
  | [], _ :: _ => false
  | a :: as, b :: bs => a = b && startsWithL as bs

def containsL : List Char → List Char → Bool
  | [], needle => needle.isEmpty
  | a :: as, needle => startsWithL (a :: as) needle || containsL as needle

/-- Python `needle in hay` substring containment. -/
def strContains (hay needle : String) : Bool :=
  containsL hay.data needle.data

/-- The hard-coded state list of `extract_profile_info`. -/
def INDIAN_STATES : List String :=
  ["Andhra Pradesh", "Arunachal Pradesh", "Assam", "Bihar", "Chhattisgarh",
   "Goa", "Gujarat", "Haryana", "Himachal Pradesh", "Jharkhand", "Karnataka",
   "Kerala", "Madhya Pradesh", "Maharashtra", "Manipur", "Meghalaya", "Mizoram",
   "Nagaland", "Odisha", "Punjab", "Rajasthan", "Sikkim", "Tamil Nadu",
   "Telangana", "Tripura", "Uttar Pradesh", "Uttarakhand", "West Bengal",
   "Delhi", "Jammu and Kashmir", "Ladakh"]

/-- The hard-coded category list of `extract_profile_info`. -/
def CATEGORIES : List String :=
  ["General", "SC", "ST", "OBC", "EWS", "Minority"]

/-- `extract_profile_info` (chat.py lines 114-171): an elif chain over the
first unset field in the order age, income, state, category; each branch
fills at most its own field and a branch that finds nothing returns the
profile unchanged. `message_lower = message.lower().strip()` is written
inline as `message.toLower.trim`. -/
def extract_profile_info (message : String) (profile : UserProfile) : UserProfile :=
  if profile.age = none then
    match findAgeNum message with
    | some age =>
      if 1 ≤ age ∧ age ≤ 120 then { profile with age := some age } else profile
    | none => profile
  else if profile.income = none then
    match scanNumber (messageLower message).data with
    | some (intDs, fracDs) =>
      { profile with income := some (Int.toNat (Int.floor
          (if strContains (messageLower message) "lakh"
              || strContains (messageLower message) "l" then
            parsedIncomeValue intDs fracDs * 100000
          else if strContains (messageLower message) "k"
              || strContains (messageLower message) "thousand" then
            parsedIncomeValue intDs fracDs * 1000
          else
            parsedIncomeValue intDs fracDs))) }
    | none => profile
  else if profile.state = none then
    match INDIAN_STATES.find? (fun st => strContains (messageLower message) (strLower st)) with
    | some st => { profile with state := some st }
    | none => profile
  else if profile.category = none then
    match CATEGORIES.find? (fun c => strContains (messageLower message) (strLower c)) with
    | some c => { profile with category := some c }
    | none => profile
  else profile

/-- The field the elif chain of `extract_profile_info` targets: the first
unset field in the order age, income, state, category. -/
inductive ProfField
  | age
  | income
  | state
  | category
deriving DecidableEq, Repr

def targetField (p : UserProfile) : Option ProfField :=
  if p.age = none then some ProfField.age
  else if p.income = none then some ProfField.income
  else if p.state = none then some ProfField.state
  else if p.category = none then some ProfField.category
  else none

def fieldIsSet (p : UserProfile) : ProfField → Bool
  | ProfField.age => p.age ≠ none
  | ProfField.income => p.income ≠ none
  | ProfField.state => p.state ≠ none
  | ProfField.category => p.category ≠ none

def fieldUnchanged (p q : UserProfile) : ProfField → Prop
  | ProfField.age => q.age = p.age
  | ProfField.income => q.income = p.income
  | ProfField.state => q.state = p.state
  | ProfField.category => q.category = p.category

/-- Branch-by-branch frame facts for `extract_profile_info`: whichever elif
branch runs, every other field of the profile is untouched. -/
lemma extract_profile_info_frames (m : String) (p : UserProfile) :
    (p.age = none →
      (extract_profile_info m p).income = p.income
      ∧ (extract_profile_info m p).state = p.state
      ∧ (extract_profile_info m p).category = p.category)
    ∧ (p.age ≠ none → p.income = none →
      (extract_profile_info m p).age = p.age
      ∧ (extract_profile_info m p).state = p.state
      ∧ (extract_profile_info m p).category = p.category)
    ∧ (p.age ≠ none → p.income ≠ none → p.state = none →
      (extract_profile_info m p).age = p.age
      ∧ (extract_profile_info m p).income = p.income
      ∧ (extract_profile_info m p).category = p.category)
    ∧ (p.age ≠ none → p.income ≠ none → p.state ≠ none → p.category = none →
      (extract_profile_info m p).age = p.age
      ∧ (extract_profile_info m p).income = p.income
      ∧ (extract_profile_info m p).state = p.state)
    ∧ (p.age ≠ none → p.income ≠ none → p.state ≠ none → p.category ≠ none →
      extract_profile_info m p = p) := by
  by_cases h1 : p.age = none
  · refine ⟨fun _ => ?_, fun hn => absurd h1 hn, fun hn => absurd h1 hn,
      fun hn => absurd h1 hn, fun hn => absurd h1 hn⟩
    unfold extract_profile_info
    rw [if_pos h1]
    split
    · split_ifs <;> exact ⟨rfl, rfl, rfl⟩
    · exact ⟨rfl, rfl, rfl⟩
  · by_cases h2 : p.income = none
    · refine ⟨fun h => absurd h h1, fun _ _ => ?_, fun _ hn => absurd h2 hn,
        fun _ hn => absurd h2 hn, fun _ hn => absurd h2 hn⟩
      unfold extract_profile_info
      rw [if_neg h1, if_pos h2]
      split
      · exact ⟨rfl, rfl, rfl⟩
      · exact ⟨rfl, rfl, rfl⟩
    · by_cases h3 : p.state = none
      · refine ⟨fun h => absurd h h1, fun _ h => absurd h h2, fun _ _ _ => ?_,
          fun _ _ hn => absurd h3 hn, fun _ _ hn => absurd h3 hn⟩
        unfold extract_profile_info
        rw [if_neg h1, if_neg h2, if_pos h3]
        split
        · exact ⟨rfl, rfl, rfl⟩
        · exact ⟨rfl, rfl, rfl⟩
      · by_cases h4 : p.category = none
        · refine ⟨fun h => absurd h h1, fun _ h => absurd h h2,
            fun _ _ h => absurd h h3, fun _ _ _ _ => ?_,
            fun _ _ _ hn => absurd h4 hn⟩
          unfold extract_profile_info
          rw [if_neg h1, if_neg h2, if_neg h3, if_pos h4]
          split
          · exact ⟨rfl, rfl, rfl⟩
          · exact ⟨rfl, rfl, rfl⟩
        · refine ⟨fun h => absurd h h1, fun _ h => absurd h h2,
            fun _ _ h => absurd h h3, fun _ _ _ h => absurd h h4,
            fun _ _ _ _ => ?_⟩
          unfold extract_profile_info
          rw [if_neg h1, if_neg h2, if_neg h3, if_neg h4]

/-- C5: `extract_profile_info` only ever touches the first unset field in
the order age, income, state, category — every field that is already set,
or is not that target field, comes out unchanged (and the function is
total: finding nothing leaves the target unset without signalling). -/
theorem extract_profile_targets_first_unset (m : String) (p : UserProfile)
    (f : ProfField)
    (h : some f ≠ targetField p ∨ fieldIsSet p f = true) :
    fieldUnchanged p (extract_profile_info m p) f := by
  obtain ⟨c1, c2, c3, c4, c5⟩ := extract_profile_info_frames m p
  by_cases h1 : p.age = none
  · cases f with
    | age =>
      exfalso
      rcases h with h | h
      · exact h (by unfold targetField; rw [if_pos h1])
      · simp [fieldIsSet, h1] at h
    | income => exact (c1 h1).1
    | state => exact (c1 h1).2.1
    | category => exact (c1 h1).2.2
  · by_cases h2 : p.income = none
    · cases f with
      | age => exact (c2 h1 h2).1
      | income =>
        exfalso
        rcases h with h | h
        · exact h (by unfold targetField; rw [if_neg h1, if_pos h2])
        · simp [fieldIsSet, h2] at h
      | state => exact (c2 h1 h2).2.1
      | category => exact (c2 h1 h2).2.2
    · by_cases h3 : p.state = none
      · cases f with
        | age => exact (c3 h1 h2 h3).1
        | income => exact (c3 h1 h2 h3).2.1
        | state =>
          exfalso
          rcases h with h | h
          · exact h (by unfold targetField; rw [if_neg h1, if_neg h2, if_pos h3])
          · simp [fieldIsSet, h3] at h
        | category => exact (c3 h1 h2 h3).2.2
      · by_cases h4 : p.category = none
        · cases f with
          | age => exact (c4 h1 h2 h3 h4).1
          | income => exact (c4 h1 h2 h3 h4).2.1
          | state => exact (c4 h1 h2 h3 h4).2.2
          | category =>
            exfalso
            rcases h with h | h
            · exact h
                (by unfold targetField; rw [if_neg h1, if_neg h2, if_neg h3, if_pos h4])
            · simp [fieldIsSet, h4] at h
        · rw [c5 h1 h2 h3 h4]
          cases f <;> rfl

theorem extract_profile_targets_first_unset_witness :
    fieldUnchanged ⟨some 3, none, none, none⟩
      (extract_profile_info "hello" ⟨some 3, none, none, none⟩) ProfField.age :=
  extract_profile_targets_first_unset "hello" ⟨some 3, none, none, none⟩
    ProfField.age (Or.inl (by decide))

/-- C6: when extraction targets the income field and the number regex
matches, the stored income is the parsed value scaled by 100000 when the
whole lowercased message contains "lakh" or "l" as a substring, else by
1000 when it contains "k" or "thousand", else taken literally — then
truncated to an integer. The containment test ranges over the entire
message, not over tokens adjacent to the number. -/
theorem income_unit_whole_message (m : String) (p : UserProfile)
    (hage : p.age ≠ none) (hinc : p.income = none)
    (intDs fracDs : List Char)
    (hnum : scanNumber (messageLower m).data = some (intDs, fracDs)) :
    (extract_profile_info m p).income
      = some (Int.toNat (Int.floor (parsedIncomeValue intDs fracDs
          * (if strContains (messageLower m) "lakh"
                || strContains (messageLower m) "l" then (100000 : ℚ)
             else if strContains (messageLower m) "k"
                || strContains (messageLower m) "thousand" then 1000
             else 1)))) := by
  unfold extract_profile_info
  rw [if_neg hage, if_pos hinc, hnum]
  split_ifs <;> simp [mul_one]

theorem income_unit_whole_message_witness :
    (extract_profile_info "my annual salary is 2.5"
      ⟨some 21, none, none, none⟩).income = some 250000 := by
  have h := income_unit_whole_message "my annual salary is 2.5"
    ⟨some 21, none, none, none⟩ (by decide) rfl
    (['2'] : List Char) (['5'] : List Char) (by decide)
  rw [h]
  have hl : (strContains (messageLower "my annual salary is 2.5") "lakh"
      || strContains (messageLower "my annual salary is 2.5") "l") = true := by decide
  rw [if_pos hl]
  have h2 : digitsToNat ['2'] = 2 := by decide
  have h5 : digitsToNat ['5'] = 5 := by decide
  unfold parsedIncomeValue
  rw [h2, h5]
  norm_num
  rfl

/-! ## LLM service template fallback (`Backend/services/llm_service.py`) -/

/-- `LLMService._generate_with_template` (llm_service.py lines 104-124):
deterministic reply selected by the number of eligible schemes. The
`match`es inside the guarded branches are unreachable in their empty case
(the count guard excludes it). -/
def generate_with_template (user_message : String)
    (eligible_schemes : List (Scheme × String)) : String :=
  if eligible_schemes.length = 0 then
    "Based on your profile, I couldn't find any schemes you're currently eligible for. However, eligibility criteria can change, so I recommend checking back periodically or exploring options to meet the requirements for specific schemes."
  else if eligible_schemes.length = 1 then
    match eligible_schemes with
    | s :: _ =>
      "Great news! You're eligible for **" ++ s.1.name
        ++ "**. This scheme offers: " ++ s.1.benefits
    | [] => ""
  else if eligible_schemes.length ≤ 3 then
    "Excellent! You're eligible for " ++ toString eligible_schemes.length
      ++ " schemes: "
      ++ joinSep ", " (eligible_schemes.map (fun s => "**" ++ s.1.name ++ "**"))
      ++ ". Each scheme has unique benefits tailored to your needs. Check out the details below!"
  else
    "Wonderful! You're eligible for **" ++ toString eligible_schemes.length
      ++ " government schemes**! This gives you multiple options to choose from based on your specific educational goals. Review the schemes below to see which ones align best with your needs."

/-- `LLMService.generate_response` composed with `_generate_with_gemini`
(llm_service.py lines 45-102). The external Gemini call is a parameter:
`geminiResult = some content` models a successful call, `none` models the
raised exception that line 100 catches; `available` is `self.available`. -/
def generate_response (available : Bool) (geminiResult : Option String)
    (user_message : String) (eligible_schemes : List (Scheme × String)) : String :=
  if available then
    match geminiResult with
    | some content => strTrim content
    | none => generate_with_template user_message eligible_schemes
  else generate_with_template user_message eligible_schemes

/-- C8: when Gemini is unavailable or its call fails, the reply is the
deterministic template keyed on the number of eligible schemes — 0 the "no
matches" message, 1 the single scheme's name and benefit text, 2-3 the
scheme names, more than 3 only the count (two same-length lists above 3
give the identical reply) — and the failure never escapes: the fallback is
a total function of the inputs. -/
theorem template_fallback_on_failure :
    (∀ (g : Option String) (msg : String) (es : List (Scheme × String)),
      generate_response false g msg es = generate_with_template msg es)
    ∧ (∀ (msg : String) (es : List (Scheme × String)),
      generate_response true none msg es = generate_with_template msg es)
    ∧ (∀ (msg : String),
      generate_with_template msg []
        = "Based on your profile, I couldn't find any schemes you're currently eligible for. However, eligibility criteria can change, so I recommend checking back periodically or exploring options to meet the requirements for specific schemes.")
    ∧ (∀ (msg : String) (s : Scheme × String),
      generate_with_template msg [s]
        = "Great news! You're eligible for **" ++ s.1.name
            ++ "**. This scheme offers: " ++ s.1.benefits)
    ∧ (∀ (msg : String) (es : List (Scheme × String)),
      2 ≤ es.length → es.length ≤ 3 →
      generate_with_template msg es
        = "Excellent! You're eligible for " ++ toString es.length
            ++ " schemes: "
            ++ joinSep ", " (es.map (fun s => "**" ++ s.1.name ++ "**"))
            ++ ". Each scheme has unique benefits tailored to your needs. Check out the details below!")
    ∧ (∀ (msg : String) (es : List (Scheme × String)),
      3 < es.length →
      generate_with_template msg es
        = "Wonderful! You're eligible for **" ++ toString es.length
            ++ " government schemes**! This gives you multiple options to choose from based on your specific educational goals. Review the schemes below to see which ones align best with your needs.")
    ∧ (∀ (msg1 msg2 : String) (es1 es2 : List (Scheme × String)),
      3 < es1.length → es1.length = es2.length →
      generate_with_template msg1 es1 = generate_with_template msg2 es2) := by
  have h4 : ∀ (msg : String) (es : List (Scheme × String)),
      3 < es.length →
      generate_with_template msg es
        = "Wonderful! You're eligible for **" ++ toString es.length
            ++ " government schemes**! This gives you multiple options to choose from based on your specific educational goals. Review the schemes below to see which ones align best with your needs." := by
    intro msg es h
    unfold generate_with_template
    rw [if_neg (by omega), if_neg (by omega), if_neg (by omega)]
  refine ⟨fun _ _ _ => rfl, fun _ _ => rfl, fun _ => rfl, fun _ _ => rfl,
    ?_, h4, ?_⟩
  · intro msg es h2 h3
    unfold generate_with_template
    rw [if_neg (by omega), if_neg (by omega), if_pos h3]
  · intro msg1 msg2 es1 es2 h1 hlen
    rw [h4 msg1 es1 h1, h4 msg2 es2 (by omega), hlen]

theorem template_fallback_on_failure_witness :
    generate_response false none "hi" [(scheme_1, "r")]
      = generate_with_template "hi" [(scheme_1, "r")]
    ∧ generate_with_template "hi" [(scheme_1, "r")]
      = "Great news! You're eligible for **" ++ scheme_1.name
          ++ "**. This scheme offers: " ++ scheme_1.benefits
    ∧ generate_with_template "a" [(scheme_1, "r"), (scheme_2, "r"), (scheme_3, "r"), (scheme_4, "r")]
      = generate_with_template "b" [(scheme_5, "r"), (scheme_6, "r"), (scheme_7, "r"), (scheme_8, "r")] :=
  ⟨template_fallback_on_failure.1 none "hi" [(scheme_1, "r")],
   template_fallback_on_failure.2.2.2.1 "hi" (scheme_1, "r"),
   template_fallback_on_failure.2.2.2.2.2.2 "a" "b"
     [(scheme_1, "r"), (scheme_2, "r"), (scheme_3, "r"), (scheme_4, "r")]
     [(scheme_5, "r"), (scheme_6, "r"), (scheme_7, "r"), (scheme_8, "r")]
     (by decide) (by decide)⟩

/-! ## Session validation and the chat flow (`Backend/routes/chat.py`) -/

/-- One character of the class `[a-f0-9\-]`. -/
def validSessionChar (c : Char) : Bool :=
  ('a' ≤ c && c ≤ 'f') || ('0' ≤ c && c ≤ '9') || c = '-'

/-- Operational form of `re.match(r'^[a-f0-9\-]{36}$', s)`: consume exactly
`n` characters of the class, then the `$` anchor, which in Python matches
at the end of the string or just before one final newline. -/
def matchSessionAux : Nat → List Char → Bool
  | 0, rest => rest == [] || rest == ['\n']
  | _ + 1, [] => false
  | n + 1, c :: cs => validSessionChar c && matchSessionAux n cs

/-- `validate_session_id`'s test (chat.py lines 36-45), as the boolean the
`HTTPException` is raised on. -/
def valid_session_id (s : String) : Bool :=
  matchSessionAux 36 s.data

/-- Session state (chat.py line 34): profile, ordered history of
(role, content) pairs, last-access time (seconds), opaque token. -/
structure SessionData where
  user_profile : UserProfile
  conversation_history : List (String × String)
  last_accessed : Int
  session_token : String
deriving DecidableEq, Repr

/-- `SESSION_TIMEOUT_MINUTES = 30`, in seconds. -/
def sessionTimeoutSeconds : Int := 30 * 60

/-- `get_or_create_session` (chat.py lines 48-72): validate (400 on
failure), sweep sessions idle longer than the timeout, then fetch-or-create
by key. The Python dict is an insertion-ordered association list; the
fresh `str(uuid.uuid4())` token is a parameter. Returns the new store and
the session returned to the caller. -/
def get_or_create_session (sessions : List (String × SessionData))
    (session_id : String) (now : Int) (freshToken : String) :
    Except Nat (List (String × SessionData) × SessionData) :=
  if valid_session_id session_id = false then
    Except.error 400
  else
    match (sessions.filter
        (fun e => !(sessionTimeoutSeconds < now - e.2.last_accessed))).lookup session_id with
    | some data =>
      Except.ok
        ((sessions.filter
            (fun e => !(sessionTimeoutSeconds < now - e.2.last_accessed))).map
          (fun e => if e.1 = session_id
            then (e.1, { e.2 with last_accessed := now }) else e),
         { data with last_accessed := now })
    | none =>
      Except.ok
        ((sessions.filter
            (fun e => !(sessionTimeoutSeconds < now - e.2.last_accessed)))
          ++ [(session_id,
               { user_profile := {}, conversation_history := [],
                 last_accessed := now, session_token := freshToken })],
         { user_profile := {}, conversation_history := [],
           last_accessed := now, session_token := freshToken })

/-- `ChatRequest` (schemas.py lines 36-40); `user_profile` defaults to the
empty profile. -/
structure ChatRequest where
  session_id : String
  message : String
  user_profile : UserProfile := {}
deriving DecidableEq, Repr

/-- `ChatResponse` (schemas.py lines 43-47); `schemes` carries the
reason-augmented records. -/
structure ChatResponse where
  response : String
  schemes : List (Scheme × String)
  next_question : Option String
deriving DecidableEq, Repr

/-- `get_next_profile_question` (chat.py lines 97-111). -/
def get_next_profile_question (p : UserProfile) : Option String :=
  if p.age = none then
    some "To help you find the right schemes, I need a few details. Let's start with your age. How old are you?"
  else if p.income = none then
    some "Great! Now, what is your family's annual income in rupees?"
  else if p.state = none then
    some "Thank you! Which state are you from? (e.g., Maharashtra, Karnataka, Tamil Nadu, etc.)"
  else if p.category = none then
    some "Almost done! What is your category? (General, SC, ST, OBC, EWS, or Minority)"
  else none

/-- The explicit-override merge of chat.py lines 195-203: `if
request.user_profile:` is always true for a pydantic model instance, and
each non-null field of the request overwrites the stored one. -/
def mergeProfile (base upd : UserProfile) : UserProfile :=
  { age := match upd.age with | some a => some a | none => base.age,
    income := match upd.income with | some i => some i | none => base.income,
    state := match upd.state with | some s => some s | none => base.state,
    category := match upd.category with | some c => some c | none => base.category }

/-- In-place update of the session entry under a key, keeping dict order
(the Python code mutates the stored session object). -/
def storeUpdate (sessions : List (String × SessionData)) (sid : String)
    (d : SessionData) : List (String × SessionData) :=
  sessions.map (fun e => if e.1 = sid then (sid, d) else e)

/-- Server-side state touched by the `/chat` endpoint: the module-level
`sessions` dict and the `chat_limiter`. -/
structure ServerState where
  chatLimiter : RateLimiter
  sessions : List (String × SessionData)

/-- The `/chat` handler (chat.py lines 174-256). External pieces are
parameters: `available`/`geminiResult` feed `generate_response` as in the
LLM service, `sanitize` stands for `sanitize_response` (regex HTML
stripping, exercised by no claim), `freshToken` for `str(uuid.uuid4())`.
Returns the HTTP outcome (error status or response) and the new state.
The final catch-all match arm is unreachable: `get_next_profile_question`
returns `none` only when all four fields are set. -/
def chat_turn (available : Bool) (geminiResult : Option String)
    (sanitize : String → String) (st : ServerState) (req : ChatRequest)
    (now : Int) (freshToken : String) :
    Except Nat ChatResponse × ServerState :=
  if (st.chatLimiter.is_allowed req.session_id now).1.1 = false then
    (Except.error 429,
     { st with chatLimiter := (st.chatLimiter.is_allowed req.session_id now).2 })
  else
    match get_or_create_session st.sessions req.session_id now freshToken with
    | Except.error code =>
      (Except.error code,
       { st with chatLimiter := (st.chatLimiter.is_allowed req.session_id now).2 })
    | Except.ok (sessions1, sessionData) =>
      match get_next_profile_question
          (extract_profile_info req.message
            (mergeProfile sessionData.user_profile req.user_profile)) with
      | some q =>
        (Except.ok { response := q, schemes := [], next_question := some q },
         { chatLimiter := (st.chatLimiter.is_allowed req.session_id now).2,
           sessions := storeUpdate sessions1 req.session_id
             { sessionData with
               user_profile := extract_profile_info req.message
                 (mergeProfile sessionData.user_profile req.user_profile),
               conversation_history := sessionData.conversation_history
                 ++ [("user", req.message), ("assistant", q)] } })
      | none =>
        match extract_profile_info req.message
            (mergeProfile sessionData.user_profile req.user_profile) with
        | ⟨some a, some i, some s, some c⟩ =>
          (Except.ok
            { response := sanitize (generate_response available geminiResult
                req.message (get_eligible_schemes ⟨a, i, s, c⟩)),
              schemes := get_eligible_schemes ⟨a, i, s, c⟩,
              next_question := none },
           { chatLimiter := (st.chatLimiter.is_allowed req.session_id now).2,
             sessions := storeUpdate sessions1 req.session_id
               { sessionData with
                 user_profile := ⟨some a, some i, some s, some c⟩,
                 conversation_history := sessionData.conversation_history
                   ++ [("user", req.message),
                       ("assistant", sanitize (generate_response available
                         geminiResult req.message
                         (get_eligible_schemes ⟨a, i, s, c⟩)))] } })
        | _ =>
          (Except.ok { response := "", schemes := [], next_question := none },
           { st with chatLimiter := (st.chatLimiter.is_allowed req.session_id now).2 })

/-- C4 counterexample: a malformed session id is rejected with a 400 and no
session is created, yet a server-side state component has changed — the
chat limiter has recorded a timestamp under the malformed key, because the
handler consults the rate limiter before validating the id. -/
theorem chat_malformed_mutates_limiter_cex :
    (chat_turn false none (fun s => s)
      { chatLimiter := { max_requests := 20, window_seconds := 60,
                         requests := fun _ => [] },
        sessions := [] }
      { session_id := "not-a-uuid", message := "hello" } 0 "tok").1
      = Except.error 400
    ∧ (chat_turn false none (fun s => s)
        { chatLimiter := { max_requests := 20, window_seconds := 60,
                           requests := fun _ => [] },
          sessions := [] }
        { session_id := "not-a-uuid", message := "hello" } 0 "tok").2.sessions = []
    ∧ (chat_turn false none (fun s => s)
        { chatLimiter := { max_requests := 20, window_seconds := 60,
                           requests := fun _ => [] },
          sessions := [] }
        { session_id := "not-a-uuid", message := "hello" } 0 "tok").2.chatLimiter.requests
          "not-a-uuid" = [0]
    ∧ ((({ max_requests := 20, window_seconds := 60, requests := fun _ => [] }
          : RateLimiter)).requests "not-a-uuid" ≠ [0]) := by
  refine ⟨rfl, rfl, rfl, by decide⟩

/-- C4 amended: a chat request with a malformed session id is rejected with
a client error (400, or 429 when that key's chat quota is already
exhausted) and no session is created — the sessions map is untouched — but
the chat rate limiter's state is updated for that key exactly as by
`is_allowed`, because the handler rate-limits before validating. -/
theorem chat_malformed_rejected_amended (available : Bool) (g : Option String)
    (sanitize : String → String) (st : ServerState) (req : ChatRequest)
    (now : Int) (tok : String)
    (hbad : valid_session_id req.session_id = false) :
    ((chat_turn available g sanitize st req now tok).1 = Except.error 400
      ∨ (chat_turn available g sanitize st req now tok).1 = Except.error 429)
    ∧ (chat_turn available g sanitize st req now tok).2.sessions = st.sessions
    ∧ (chat_turn available g sanitize st req now tok).2.chatLimiter
        = (st.chatLimiter.is_allowed req.session_id now).2 := by
  unfold chat_turn
  by_cases h : (st.chatLimiter.is_allowed req.session_id now).1.1 = false
  · rw [if_pos h]
    exact ⟨Or.inr rfl, rfl, rfl⟩
  · rw [if_neg h]
    unfold get_or_create_session
    rw [if_pos hbad]
    exact ⟨Or.inl rfl, rfl, rfl⟩

theorem chat_malformed_rejected_amended_witness :
    ((chat_turn true none (fun s => s)
        { chatLimiter := { max_requests := 20, window_seconds := 60,
                           requests := fun _ => [] },
          sessions := [] }
        { session_id := "ZZZ", message := "hi" } 5 "t").1 = Except.error 400
      ∨ (chat_turn true none (fun s => s)
          { chatLimiter := { max_requests := 20, window_seconds := 60,
                             requests := fun _ => [] },
            sessions := [] }
          { session_id := "ZZZ", message := "hi" } 5 "t").1 = Except.error 429)
    ∧ (chat_turn true none (fun s => s)
        { chatLimiter := { max_requests := 20, window_seconds := 60,
                           requests := fun _ => [] },
          sessions := [] }
        { session_id := "ZZZ", message := "hi" } 5 "t").2.sessions
        = ({ chatLimiter := { max_requests := 20, window_seconds := 60,
                              requests := fun _ => [] },
             sessions := [] } : ServerState).sessions
    ∧ (chat_turn true none (fun s => s)
        { chatLimiter := { max_requests := 20, window_seconds := 60,
                           requests := fun _ => [] },
          sessions := [] }
        { session_id := "ZZZ", message := "hi" } 5 "t").2.chatLimiter
        = (({ chatLimiter := { max_requests := 20, window_seconds := 60,
                               requests := fun _ => [] },
              sessions := [] } : ServerState).chatLimiter.is_allowed "ZZZ" 5).2 :=
  chat_malformed_rejected_amended true none (fun s => s)
    { chatLimiter := { max_requests := 20, window_seconds := 60,
                       requests := fun _ => [] },
      sessions := [] }
    { session_id := "ZZZ", message := "hi" } 5 "t" (by decide)

/-- C10 counterexample: the validator also accepts a 37-character string —
36 class characters followed by one newline — since Python's `$` matches
before a terminal newline; such a string has length ≠ 36 and contains a
character outside a-f, 0-9, hyphen, which the claim says must be rejected. -/
theorem session_id_trailing_newline_cex :
    valid_session_id (String.mk (List.replicate 36 'a' ++ ['\n'])) = true
    ∧ (String.mk (List.replicate 36 'a' ++ ['\n'])).data.length ≠ 36
    ∧ '\n' ∈ (String.mk (List.replicate 36 'a' ++ ['\n'])).data
    ∧ validSessionChar '\n' = false := by
  refine ⟨by decide, by decide, by decide, by decide⟩

lemma matchSessionAux_iff (n : Nat) : ∀ (cs : List Char),
    matchSessionAux n cs = true
      ↔ ((cs.length = n ∧ cs.all validSessionChar = true)
          ∨ (∃ l, cs = l ++ ['\n'] ∧ l.length = n ∧ l.all validSessionChar = true)) := by
  induction n with
  | zero =>
    intro cs
    simp only [matchSessionAux, Bool.or_eq_true, beq_iff_eq]
    constructor
    · rintro (rfl | rfl)
      · exact Or.inl ⟨rfl, rfl⟩
      · exact Or.inr ⟨[], rfl, rfl, rfl⟩
    · rintro (⟨hlen, _⟩ | ⟨l, rfl, hlen, _⟩)
      · exact Or.inl (List.length_eq_zero.mp hlen)
      · have hl : l = [] := List.length_eq_zero.mp hlen
        subst hl
        exact Or.inr rfl
  | succ n ih =>
    intro cs
    cases cs with
    | nil =>
      apply iff_of_false
      · simp [matchSessionAux]
      · rintro (⟨hl, _⟩ | ⟨l, hl, _, _⟩)
        · simp at hl
        · exact absurd hl (by simp)
    | cons c cs' =>
      simp only [matchSessionAux, Bool.and_eq_true]
      rw [ih cs']
      constructor
      · rintro ⟨hc, (⟨hlen, hall⟩ | ⟨l, rfl, hlen, hall⟩)⟩
        · exact Or.inl ⟨by simp [hlen], by simp [List.all_cons, hc, hall]⟩
        · exact Or.inr ⟨c :: l, by simp, by simp [hlen],
            by simp [List.all_cons, hc, hall]⟩
      · rintro (⟨hlen, hall⟩ | ⟨l, heq, hlen, hall⟩)
        · simp only [List.all_cons, Bool.and_eq_true] at hall
          exact ⟨hall.1, Or.inl ⟨by simpa using hlen, hall.2⟩⟩
        · cases l with
          | nil => simp at hlen
          | cons x l' =>
            rw [List.cons_append] at heq
            injection heq with h1 h2
            subst h1
            simp only [List.all_cons, Bool.and_eq_true] at hall
            exact ⟨hall.1, Or.inr ⟨l', h2, by simpa using hlen, hall.2⟩⟩

lemma lookup_map_update_isSome (l : List (String × SessionData)) (sid : String)
    (g : SessionData → SessionData)
    (h : (l.lookup sid).isSome = true) :
    ((l.map (fun e => if e.1 = sid then (e.1, g e.2) else e)).lookup sid).isSome
      = true := by
  induction l with
  | nil => simp [List.lookup] at h
  | cons e l ih =>
    obtain ⟨k, v⟩ := e
    rw [List.map_cons]
    by_cases hk : k = sid
    · subst hk
      have hcond : ((k, v).1 = k) := rfl
      rw [if_pos hcond]
      simp [List.lookup]
    · have hcond : ¬((k, v).1 = sid) := hk
      rw [if_neg hcond]
      have hne : (sid == k) = false := by simp [Ne.symm hk]
      simp only [List.lookup, hne] at h ⊢
      exact ih h

lemma lookup_append_right (l₁ l₂ : List (String × SessionData)) (sid : String)
    (h : l₁.lookup sid = none) :
    (l₁ ++ l₂).lookup sid = l₂.lookup sid := by
  induction l₁ with
  | nil => simp
  | cons e l ih =>
    obtain ⟨k, v⟩ := e
    by_cases hk : sid = k
    · simp [List.lookup, hk] at h
    · have hne : (sid == k) = false := by simp [hk]
      simp only [List.lookup, hne] at h
      simp only [List.cons_append, List.lookup, hne]
      exact ih h

/-- C10 amended: the validator accepts exactly the 36-character strings
over a-f, 0-9, hyphen — including non-canonical shapes such as 36 hyphens —
and additionally those same strings followed by one terminal newline
(Python `$`); an accepted id always yields a created/fetched session,
every other string is rejected with a 400 client error. -/
theorem session_id_format_amended :
    (∀ s : String,
      valid_session_id s = true
        ↔ ((s.data.length = 36 ∧ s.data.all validSessionChar = true)
            ∨ (∃ l, s.data = l ++ ['\n'] ∧ l.length = 36
                ∧ l.all validSessionChar = true)))
    ∧ (∀ (sessions : List (String × SessionData)) (sid : String) (now : Int)
        (tok : String), valid_session_id sid = false →
        get_or_create_session sessions sid now tok = Except.error 400)
    ∧ (∀ (sessions : List (String × SessionData)) (sid : String) (now : Int)
        (tok : String), valid_session_id sid = true →
        ∃ store sess,
          get_or_create_session sessions sid now tok = Except.ok (store, sess)
          ∧ (store.lookup sid).isSome = true) := by
  refine ⟨fun s => matchSessionAux_iff 36 s.data, ?_, ?_⟩
  · intro sessions sid now tok h
    unfold get_or_create_session
    rw [if_pos h]
  · intro sessions sid now tok h
    unfold get_or_create_session
    rw [if_neg (by simp [h])]
    cases hl : (sessions.filter
        (fun e => !(sessionTimeoutSeconds < now - e.2.last_accessed))).lookup sid with
    | some data =>
      refine ⟨_, _, rfl, ?_⟩
      exact lookup_map_update_isSome _ sid
        (fun d => { d with last_accessed := now }) (by rw [hl]; rfl)
    | none =>
      refine ⟨_, _, rfl, ?_⟩
      rw [lookup_append_right _ _ sid hl]
      simp [List.lookup]

theorem session_id_format_amended_witness :
    valid_session_id (String.mk (List.replicate 36 '-')) = true
    ∧ (∃ store sess,
        get_or_create_session [] (String.mk (List.replicate 36 '-')) 0 "tok"
          = Except.ok (store, sess)
        ∧ (store.lookup (String.mk (List.replicate 36 '-'))).isSome = true)
    ∧ get_or_create_session [] "BAD" 0 "tok" = Except.error 400 :=
  ⟨(session_id_format_amended.1 (String.mk (List.replicate 36 '-'))).mpr
     (Or.inl ⟨by decide, by decide⟩),
   session_id_format_amended.2.2 [] (String.mk (List.replicate 36 '-')) 0 "tok"
     (by decide),
   session_id_format_amended.2.1 [] "BAD" 0 "tok" (by decide)⟩

end Bharat
